import Mathlib

/-!
# PulseSensorPlayground: sampling scheduler, new-sample flag and run control

A shallow embedding of `src/PulseSensorPlayground.cpp`.

* The playground object is a record of its data members; every member function is a
  function from the record to a result and a new record.
* `PulseSensor` (one channel) is a collaborator whose code lives outside this file: a
  channel is a value of an arbitrary type `χ`, and its member functions are the fields of
  the method table `PulseSensor χ`.
* `Sensors[i].m()` is `invoke`: it yields `none` when `i` lies outside the array that the
  constructor allocated (the C++ behaviour is then undefined), and otherwise runs `m` on
  element `i` and appends `(i, m)` to the ghost field `Trace`, the order-of-calls record a
  test double would keep.
* `unsigned long` and `long` are 32-bit words: naturals reduced modulo `2 ^ 32`, and the
  two's-complement reading of such a word.
* `micros()` and the three interrupt collaborators (`PulseSensorPlaygroundSetupInterrupt`,
  `PulseSensorPlaygroundDisableInterrupt`, `PulseSensorPlaygroundEnableInterrupt`) are
  inputs of the call that consults them.
* The build flags `PULSE_SENSOR_TIMING_ANALYSIS` and `PULSE_SENSOR_MEMORY_USAGE` are off.
-/

namespace Arduino

/-- Number of values of a 32-bit `unsigned long`. -/
def ULONG_RANGE : Nat := 4294967296

/-- Largest value of a 32-bit `long`, plus one. -/
def LONG_HALF : Nat := 2147483648

/-- Sum of two `unsigned long` values. -/
def addUL (a b : Nat) : Nat := (a + b) % ULONG_RANGE

/-- Difference `a - b` of two `unsigned long` values. -/
def subUL (a b : Nat) : Nat := (a % ULONG_RANGE + (ULONG_RANGE - b % ULONG_RANGE)) % ULONG_RANGE

/-- The cast `(long) u` of an `unsigned long` (two's complement). -/
def toLong (u : Nat) : Int :=
  if u % ULONG_RANGE < LONG_HALF then ((u % ULONG_RANGE : Nat) : Int)
  else ((u % ULONG_RANGE : Nat) : Int) - (ULONG_RANGE : Int)

/-- The cast `(byte) n` of an `int`. -/
def toByte (n : Int) : Nat := (n % 256).toNat

/-- The Arduino core's `constrain(amt, low, high)`:
`((amt)<(low)?(low):((amt)>(high)?(high):(amt)))`. Both bounds are inclusive. -/
def constrain (amt low high : Int) : Int :=
  if amt < low then low else if amt > high then high else amt

end Arduino

open Arduino

/-- The member functions of `PulseSensor` that the playground calls. -/
inductive SensorCall where
  | initializeLEDs
  | analogInput (inputPin : Int)
  | blinkOnPulse (blinkPin : Int)
  | fadeOnPulse (fadePin : Int)
  | setThreshold (threshold : Int)
  | readNextSample
  | processLatestSample
  | updateLEDs
  | resetVariables
  | getLatestSample
  | getBeatsPerMinute
  | getInterBeatIntervalMs
  | getPulseAmplitude
  | getLastBeatTime
  | sawStartOfBeat
  | isInsideBeat
  deriving DecidableEq, Repr

/-- Method table of the channel class `PulseSensor` over a channel state `χ`. Every member
function may change the channel; those with a result return it next to the new channel. -/
structure PulseSensor (χ : Type) where
  construct : χ
  initializeLEDs : χ → χ
  analogInput : Int → χ → χ
  blinkOnPulse : Int → χ → χ
  fadeOnPulse : Int → χ → χ
  setThreshold : Int → χ → χ
  readNextSample : χ → χ
  processLatestSample : χ → χ
  updateLEDs : χ → χ
  resetVariables : χ → χ
  getLatestSample : χ → Int × χ
  getBeatsPerMinute : χ → Int × χ
  getInterBeatIntervalMs : χ → Int × χ
  getPulseAmplitude : χ → Int × χ
  getLastBeatTime : χ → Nat × χ
  sawStartOfBeat : χ → Bool × χ
  isInsideBeat : χ → Bool × χ

/-- Compile-time constants of `PulseSensorPlayground.h`. -/
structure Config where
  USE_ARDUINO_INTERRUPTS : Bool
  MICROS_PER_READ : Nat
  deriving DecidableEq, Repr

/-- Data members of the playground. `SensorCount` is the size of the array `Sensors`
(lines 27-28 allocate `Sensors = new PulseSensor[SensorCount]` and nothing resizes it), so
it is read off the array. `Trace` is ghost state: the channel calls made so far. -/
structure PulseSensorPlayground (χ : Type) where
  Sensors : List χ
  Paused : Bool
  SawNewSample : Bool
  NextSampleMicros : Nat
  Trace : List (Nat × SensorCall)
  deriving DecidableEq, Repr

namespace PulseSensorPlayground

variable {χ : Type} {α : Type}

/-- The member `SensorCount`. -/
def SensorCount (s : PulseSensorPlayground χ) : Nat := s.Sensors.length

/-- The call `Sensors[i].m()` of a member function with a result. -/
def invoke (call : SensorCall) (m : χ → α × χ) (i : Nat) (s : PulseSensorPlayground χ) :
    Option (α × PulseSensorPlayground χ) :=
  match s.Sensors[i]? with
  | none => none
  | some x =>
    some ((m x).1, { s with Sensors := s.Sensors.set i (m x).2, Trace := s.Trace ++ [(i, call)] })

/-- The call `Sensors[i].m()` of a `void` member function. -/
def invokeVoid (call : SensorCall) (m : χ → χ) (i : Nat) (s : PulseSensorPlayground χ) :
    Option (PulseSensorPlayground χ) :=
  (invoke call (fun x => ((), m x)) i s).map Prod.snd

/-- Iterations `i, i+1, ..., i+k-1` of a loop body. -/
def loopFrom (body : Nat → PulseSensorPlayground χ → Option (PulseSensorPlayground χ)) :
    Nat → Nat → PulseSensorPlayground χ → Option (PulseSensorPlayground χ)
  | _, 0, s => some s
  | i, k + 1, s => (body i s).bind (loopFrom body (i + 1) k)

/-- The loop `for (int i = 0; i < SensorCount; ++i) body`. -/
def forEachSensor (body : Nat → PulseSensorPlayground χ → Option (PulseSensorPlayground χ))
    (s : PulseSensorPlayground χ) : Option (PulseSensorPlayground χ) :=
  loopFrom body 0 s.SensorCount s

/-- The constructor (lines 22-34). `Paused`, `SawNewSample` and `NextSampleMicros` are not
initialised there: their values are whatever `junk` holds. -/
def create (P : PulseSensor χ) (numberOfSensors : Int) (junk : Bool × Bool × Nat) :
    PulseSensorPlayground χ :=
  { Sensors := List.replicate (toByte numberOfSensors) P.construct
    Paused := junk.1
    SawNewSample := junk.2.1
    NextSampleMicros := junk.2.2
    Trace := [] }

/-- The guard `sensorIndex != constrain(sensorIndex, 0, SensorCount)` of every per-channel
accessor. -/
def outOfRange (sensorIndex : Int) (s : PulseSensorPlayground χ) : Bool :=
  decide (sensorIndex ≠ constrain sensorIndex 0 (s.SensorCount : Int))

/-- Member `begin()` (lines 36-76); `setupOk` is what `PulseSensorPlaygroundSetupInterrupt()`
returns, `micros` is the clock reading. -/
def begin (cfg : Config) (P : PulseSensor χ) (setupOk : Bool) (micros : Nat)
    (s : PulseSensorPlayground χ) : Option (Bool × PulseSensorPlayground χ) :=
  (forEachSensor (invokeVoid .initializeLEDs P.initializeLEDs) s).bind fun s1 =>
    let s2 := { s1 with NextSampleMicros := addUL micros cfg.MICROS_PER_READ }
    let s3 := { s2 with SawNewSample := false }
    let s4 := { s3 with Paused := false }
    if cfg.USE_ARDUINO_INTERRUPTS then
      if !setupOk then some (false, { s4 with Paused := true })
      else some (true, s4)
    else some (true, s4)

/-- Member `analogInput` (lines 78-83). -/
def analogInput (P : PulseSensor χ) (inputPin sensorIndex : Int) (s : PulseSensorPlayground χ) :
    Option (PulseSensorPlayground χ) :=
  if outOfRange sensorIndex s then some s
  else invokeVoid (.analogInput inputPin) (P.analogInput inputPin) sensorIndex.toNat s

/-- Member `blinkOnPulse` (lines 85-90). -/
def blinkOnPulse (P : PulseSensor χ) (blinkPin sensorIndex : Int) (s : PulseSensorPlayground χ) :
    Option (PulseSensorPlayground χ) :=
  if outOfRange sensorIndex s then some s
  else invokeVoid (.blinkOnPulse blinkPin) (P.blinkOnPulse blinkPin) sensorIndex.toNat s

/-- Member `fadeOnPulse` (lines 92-97). -/
def fadeOnPulse (P : PulseSensor χ) (fadePin sensorIndex : Int) (s : PulseSensorPlayground χ) :
    Option (PulseSensorPlayground χ) :=
  if outOfRange sensorIndex s then some s
  else invokeVoid (.fadeOnPulse fadePin) (P.fadeOnPulse fadePin) sensorIndex.toNat s

/-- Member `onSampleTime()` (lines 142-164): read every channel, then process every channel
and update its LEDs, then raise the flag. -/
def onSampleTime (P : PulseSensor χ) (s : PulseSensorPlayground χ) :
    Option (PulseSensorPlayground χ) :=
  (forEachSensor (invokeVoid .readNextSample P.readNextSample) s).bind fun s1 =>
    (forEachSensor
      (fun i t => (invokeVoid .processLatestSample P.processLatestSample i t).bind
        (invokeVoid .updateLEDs P.updateLEDs i)) s1).bind fun s2 =>
      some { s2 with SawNewSample := true }

/-- The test `(long) (NextSampleMicros - nowMicros) > 0L` of line 120. -/
def notTimeYet (nextSampleMicros nowMicros : Nat) : Bool :=
  decide (toLong (subUL nextSampleMicros nowMicros) > 0)

/-- Member `sawNewSample()` (lines 99-140); `micros` is the clock reading, consulted in
polling mode only. -/
def sawNewSample (cfg : Config) (P : PulseSensor χ) (micros : Nat)
    (s : PulseSensorPlayground χ) : Option (Bool × PulseSensorPlayground χ) :=
  if !s.Paused then
    if cfg.USE_ARDUINO_INTERRUPTS then
      let sawOne := s.SawNewSample
      some (sawOne, { s with SawNewSample := false })
    else
      let nowMicros := micros
      if notTimeYet s.NextSampleMicros nowMicros then some (false, s)
      else
        (onSampleTime P { s with NextSampleMicros := addUL nowMicros cfg.MICROS_PER_READ }).map
          fun s1 => (true, s1)
  else some (false, s)

/-- Member `getLatestSample` (lines 166-171). -/
def getLatestSample (P : PulseSensor χ) (sensorIndex : Int) (s : PulseSensorPlayground χ) :
    Option (Int × PulseSensorPlayground χ) :=
  if outOfRange sensorIndex s then some (-1, s)
  else invoke .getLatestSample P.getLatestSample sensorIndex.toNat s

/-- Member `getBeatsPerMinute` (lines 173-178). -/
def getBeatsPerMinute (P : PulseSensor χ) (sensorIndex : Int) (s : PulseSensorPlayground χ) :
    Option (Int × PulseSensorPlayground χ) :=
  if outOfRange sensorIndex s then some (-1, s)
  else invoke .getBeatsPerMinute P.getBeatsPerMinute sensorIndex.toNat s

/-- Member `getInterBeatIntervalMs` (lines 180-185). -/
def getInterBeatIntervalMs (P : PulseSensor χ) (sensorIndex : Int) (s : PulseSensorPlayground χ) :
    Option (Int × PulseSensorPlayground χ) :=
  if outOfRange sensorIndex s then some (-1, s)
  else invoke .getInterBeatIntervalMs P.getInterBeatIntervalMs sensorIndex.toNat s

/-- Member `sawStartOfBeat` (lines 187-192). -/
def sawStartOfBeat (P : PulseSensor χ) (sensorIndex : Int) (s : PulseSensorPlayground χ) :
    Option (Bool × PulseSensorPlayground χ) :=
  if outOfRange sensorIndex s then some (false, s)
  else invoke .sawStartOfBeat P.sawStartOfBeat sensorIndex.toNat s

/-- Member `isInsideBeat` (lines 194-199). -/
def isInsideBeat (P : PulseSensor χ) (sensorIndex : Int) (s : PulseSensorPlayground χ) :
    Option (Bool × PulseSensorPlayground χ) :=
  if outOfRange sensorIndex s then some (false, s)
  else invoke .isInsideBeat P.isInsideBeat sensorIndex.toNat s

/-- Member `setThreshold` (lines 201-206). -/
def setThreshold (P : PulseSensor χ) (threshold sensorIndex : Int) (s : PulseSensorPlayground χ) :
    Option (PulseSensorPlayground χ) :=
  if outOfRange sensorIndex s then some s
  else invokeVoid (.setThreshold threshold) (P.setThreshold threshold) sensorIndex.toNat s

/-- Member `getPulseAmplitude` (lines 232-237). -/
def getPulseAmplitude (P : PulseSensor χ) (sensorIndex : Int) (s : PulseSensorPlayground χ) :
    Option (Int × PulseSensorPlayground χ) :=
  if outOfRange sensorIndex s then some (-1, s)
  else invoke .getPulseAmplitude P.getPulseAmplitude sensorIndex.toNat s

/-- Member `getLastBeatTime` (lines 239-244); `return -1` in a function returning
`unsigned long` yields the largest `unsigned long`. -/
def getLastBeatTime (P : PulseSensor χ) (sensorIndex : Int) (s : PulseSensorPlayground χ) :
    Option (Nat × PulseSensorPlayground χ) :=
  if outOfRange sensorIndex s then some (ULONG_RANGE - 1, s)
  else invoke .getLastBeatTime P.getLastBeatTime sensorIndex.toNat s

/-- Member `isPaused()` (lines 246-248). -/
def isPaused (s : PulseSensorPlayground χ) : Bool := s.Paused

/-- Member `pause()` (lines 250-271); `disableOk` is what
`PulseSensorPlaygroundDisableInterrupt()` returns. -/
def pause (cfg : Config) (P : PulseSensor χ) (disableOk : Bool) (s : PulseSensorPlayground χ) :
    Option (Bool × PulseSensorPlayground χ) :=
  if cfg.USE_ARDUINO_INTERRUPTS then
    if !disableOk then some (false, { s with Paused := false })
    else
      (forEachSensor (invokeVoid .resetVariables P.resetVariables) s).map fun s1 =>
        (true, { s1 with Paused := true })
  else
    (forEachSensor (invokeVoid .resetVariables P.resetVariables) s).map fun s1 =>
      (true, { s1 with Paused := true })

/-- Member `resume()` (lines 273-287); `enableOk` is what
`PulseSensorPlaygroundEnableInterrupt()` returns. -/
def resume (cfg : Config) (enableOk : Bool) (s : PulseSensorPlayground χ) :
    Bool × PulseSensorPlayground χ :=
  if cfg.USE_ARDUINO_INTERRUPTS then
    if !enableOk then (false, { s with Paused := true })
    else (true, { s with Paused := false })
  else (true, { s with Paused := false })

/-- One call of the application or of the interrupt service routine on the playground, with
the values that the collaborators consulted by the call hand back. -/
inductive Call where
  | onSampleTime
  | sawNewSample (micros : Nat)
  | pause (disableOk : Bool)
  | resume (enableOk : Bool)
  deriving DecidableEq, Repr

/-- Run one call; the first component is the value the call returns (`none` for `void`). -/
def perform (cfg : Config) (P : PulseSensor χ) :
    Call → PulseSensorPlayground χ → Option (Option Bool × PulseSensorPlayground χ)
  | .onSampleTime, s => (onSampleTime P s).map fun t => (none, t)
  | .sawNewSample micros, s => (sawNewSample cfg P micros s).map fun r => (some r.1, r.2)
  | .pause disableOk, s => (pause cfg P disableOk s).map fun r => (some r.1, r.2)
  | .resume enableOk, s => some (some (resume cfg enableOk s).1, (resume cfg enableOk s).2)

/-- Run a sequence of calls in order; the history pairs every call with what it returned. -/
def runCalls (cfg : Config) (P : PulseSensor χ) :
    List Call → PulseSensorPlayground χ →
      Option (List (Call × Option Bool) × PulseSensorPlayground χ)
  | [], s => some ([], s)
  | c :: cs, s =>
    (perform cfg P c s).bind fun r =>
      (runCalls cfg P cs r.2).map fun h => ((c, r.1) :: h.1, h.2)

/-- A history entry that is a `sawNewSample()` call returning `true`. -/
def isSignal : Call × Option Bool → Bool
  | (.sawNewSample _, some true) => true
  | _ => false

/-- A history entry that is an `onSampleTime()` call. -/
def isCycle : Call × Option Bool → Bool
  | (.onSampleTime, _) => true
  | _ => false

/-- The channel calls of one pass over channels `0 .. n-1` that makes the calls `calls`, in
that order, on each channel. -/
def pass (calls : List SensorCall) (n : Nat) : List (Nat × SensorCall) :=
  (List.range n).flatMap fun i => calls.map fun c => (i, c)

/-- The channel calls of one acquisition cycle over `n` channels: the read pass, then the
process pass. -/
def cycleTrace (n : Nat) : List (Nat × SensorCall) :=
  pass [.readNextSample] n ++ pass [.processLatestSample, .updateLEDs] n

/-- What one acquisition cycle does to a channel. -/
def cycleChannel (P : PulseSensor χ) (x : χ) : χ :=
  P.updateLEDs (P.processLatestSample (P.readNextSample x))

/-- A test double for `PulseSensor`: the channel is the number of state-changing calls it
has received; the accessors answer with fixed values. -/
def counting : PulseSensor Nat :=
  { construct := 0
    initializeLEDs := fun c => c + 1
    analogInput := fun _ c => c + 1
    blinkOnPulse := fun _ c => c + 1
    fadeOnPulse := fun _ c => c + 1
    setThreshold := fun _ c => c + 1
    readNextSample := fun c => c + 1
    processLatestSample := fun c => c + 1
    updateLEDs := fun c => c + 1
    resetVariables := fun _ => 0
    getLatestSample := fun c => (512, c)
    getBeatsPerMinute := fun c => (60, c)
    getInterBeatIntervalMs := fun c => (1000, c)
    getPulseAmplitude := fun c => (100, c)
    getLastBeatTime := fun c => (0, c)
    sawStartOfBeat := fun c => (true, c)
    isInsideBeat := fun c => (true, c) }

/-- Interrupt-driven build with the 2 ms sample period of the header. -/
def interruptMode : Config := { USE_ARDUINO_INTERRUPTS := true, MICROS_PER_READ := 2000 }

/-- Polling build with the 2 ms sample period of the header. -/
def pollingMode : Config := { USE_ARDUINO_INTERRUPTS := false, MICROS_PER_READ := 2000 }

/-- One channel, running, no sample pending, next sample due at 2000. -/
def oneIdle : PulseSensorPlayground Nat :=
  { Sensors := [0]
    Paused := false
    SawNewSample := false
    NextSampleMicros := 2000
    Trace := [] }

/-- Two channels, running, no sample pending, next sample due at 2000. -/
def twoIdle : PulseSensorPlayground Nat :=
  { Sensors := [0, 0]
    Paused := false
    SawNewSample := false
    NextSampleMicros := 2000
    Trace := [] }

/-- One channel, paused, no sample pending. -/
def onePaused : PulseSensorPlayground Nat :=
  { Sensors := [0]
    Paused := true
    SawNewSample := false
    NextSampleMicros := 2000
    Trace := [] }

/-- Two channels, running, a sample pending. -/
def twoPending : PulseSensorPlayground Nat :=
  { Sensors := [3, 3]
    Paused := false
    SawNewSample := true
    NextSampleMicros := 2000
    Trace := cycleTrace 2 }

/-- A call sequence in which two cycles complete before the application polls, and the
application then polls twice and pauses and resumes in between. -/
def twoCyclesThenPolls : List Call :=
  [.sawNewSample 0, .onSampleTime, .onSampleTime, .sawNewSample 0, .pause true, .resume true,
    .sawNewSample 0]

/-- Where, relative to the two statements `sawOne = SawNewSample;` (line 113) and
`SawNewSample = false;` (line 114), the interrupt service routine runs. -/
inductive IsrPoint where
  | beforeRead
  | betweenReadAndClear
  | afterClear
  deriving DecidableEq, Repr

/-- Lines 113-117 of `sawNewSample()` (interrupt mode, not paused) together with one run of
the interrupt service routine, which calls `onSampleTime()`, arriving at `isr`. Lines 112 and
115, which would disable and re-enable the interrupt around the two statements, are comments
in the source, so the routine can arrive between them. -/
def sawNewSampleWithInterrupt (P : PulseSensor χ) (isr : IsrPoint)
    (s : PulseSensorPlayground χ) : Option (Bool × PulseSensorPlayground χ) :=
  match isr with
  | .beforeRead =>
    (onSampleTime P s).map fun s1 =>
      let sawOne := s1.SawNewSample
      (sawOne, { s1 with SawNewSample := false })
  | .betweenReadAndClear =>
    let sawOne := s.SawNewSample
    (onSampleTime P s).map fun s1 => (sawOne, { s1 with SawNewSample := false })
  | .afterClear =>
    let sawOne := s.SawNewSample
    (onSampleTime P { s with SawNewSample := false }).map fun s1 => (sawOne, s1)

/-- A call that leaves `Paused = false`: a `resume()` that succeeds (every `resume()` in
polling mode), or a `pause()` that fails (interrupt mode only). -/
def unpauses (cfg : Config) : Call → Bool
  | .resume enableOk => !cfg.USE_ARDUINO_INTERRUPTS || enableOk
  | .pause disableOk => cfg.USE_ARDUINO_INTERRUPTS && !disableOk
  | _ => false

/-- A test double for `PulseSensor` whose last beat fell on the largest `unsigned long`
millisecond count. -/
def beatAtMax : PulseSensor Nat :=
  { counting with getLastBeatTime := fun c => (4294967295, c) }

/-! ## Loops over the channels and the due test -/

theorem loopFrom_acts (g : χ → χ) (t : Nat → List (Nat × SensorCall))
    (body : Nat → PulseSensorPlayground χ → Option (PulseSensorPlayground χ))
    (hbody : ∀ i (s : PulseSensorPlayground χ) x, s.Sensors[i]? = some x →
      body i s = some { s with Sensors := s.Sensors.set i (g x), Trace := s.Trace ++ t i }) :
    ∀ (post pre : List χ) (s : PulseSensorPlayground χ), s.Sensors = pre ++ post →
      loopFrom body pre.length post.length s =
        some { s with Sensors := pre ++ post.map g,
                      Trace := s.Trace ++ (List.range' pre.length post.length).flatMap t } := by
  intro post
  induction post with
  | nil =>
    intro pre s h
    cases s
    simp_all [loopFrom]
  | cons x post ih =>
    intro pre s h
    have hx : s.Sensors[pre.length]? = some x := by
      rw [h, List.getElem?_append_right (Nat.le_refl _)]; simp
    have hset : s.Sensors.set pre.length (g x) = (pre ++ [g x]) ++ post := by simp [h]
    simp only [List.length_cons, loopFrom, hbody _ _ _ hx, Option.some_bind]
    have := ih (pre ++ [g x]) { s with Sensors := s.Sensors.set pre.length (g x), Trace := s.Trace ++ t pre.length } hset
    simp only [List.length_append, List.length_singleton] at this
    rw [this]
    simp [List.range'_succ]

theorem forEachSensor_acts (g : χ → χ) (t : Nat → List (Nat × SensorCall))
    (body : Nat → PulseSensorPlayground χ → Option (PulseSensorPlayground χ))
    (hbody : ∀ i (s : PulseSensorPlayground χ) x, s.Sensors[i]? = some x →
      body i s = some { s with Sensors := s.Sensors.set i (g x), Trace := s.Trace ++ t i })
    (s : PulseSensorPlayground χ) :
    forEachSensor body s =
      some { s with Sensors := s.Sensors.map g,
                    Trace := s.Trace ++ (List.range s.Sensors.length).flatMap t } := by
  have := loopFrom_acts g t body hbody s.Sensors [] s rfl
  simpa [forEachSensor, SensorCount, List.range_eq_range'] using this

theorem invokeVoid_eq (call : SensorCall) (m : χ → χ) (i : Nat) (s : PulseSensorPlayground χ)
    (x : χ) (hx : s.Sensors[i]? = some x) :
    invokeVoid call m i s =
      some { s with Sensors := s.Sensors.set i (m x), Trace := s.Trace ++ [(i, call)] } := by
  simp [invokeVoid, invoke, hx]

theorem forEachSensor_invokeVoid (call : SensorCall) (m : χ → χ) (s : PulseSensorPlayground χ) :
    forEachSensor (invokeVoid call m) s =
      some { s with Sensors := s.Sensors.map m, Trace := s.Trace ++ pass [call] s.Sensors.length } := by
  rw [forEachSensor_acts m (fun i => [(i, call)]) _ (fun i s x hx => invokeVoid_eq call m i s x hx)]
  simp [pass]

theorem onSampleTime_eq (P : PulseSensor χ) (s : PulseSensorPlayground χ) :
    onSampleTime P s =
      some { s with Sensors := s.Sensors.map (cycleChannel P),
                    Trace := s.Trace ++ cycleTrace s.Sensors.length,
                    SawNewSample := true } := by
  unfold onSampleTime
  rw [forEachSensor_invokeVoid]
  simp only [Option.some_bind]
  rw [forEachSensor_acts (fun x => P.updateLEDs (P.processLatestSample x))
    (fun i => [(i, SensorCall.processLatestSample), (i, SensorCall.updateLEDs)])]
  · simp [pass, cycleTrace, cycleChannel, Function.comp_def]
  · intro i t x hx
    rw [invokeVoid_eq _ _ i t x hx]
    simp only [Option.some_bind]
    rw [invokeVoid_eq _ _ i _ (P.processLatestSample x) (by
      have hi : i < t.Sensors.length := (List.getElem?_eq_some_iff.mp hx).1
      simp [List.getElem?_set, hi])]
    simp

theorem notTimeYet_iff (next now : Nat) :
    notTimeYet next now = true ↔
      1 ≤ ((next : Int) - now) % 4294967296 ∧ ((next : Int) - now) % 4294967296 ≤ 2147483647 := by
  simp only [notTimeYet, toLong, subUL, ULONG_RANGE, LONG_HALF, decide_eq_true_eq]
  split <;> omega

theorem notTimeYet_false_iff (next now : Nat) :
    notTimeYet next now = false ↔ ((now : Int) - next) % 4294967296 ≤ 2147483648 := by
  rw [← Bool.not_eq_true, notTimeYet_iff]
  omega

theorem sawNewSample_polling_early (cfg : Config) (P : PulseSensor χ) (now : Nat)
    (s : PulseSensorPlayground χ) (hM : cfg.USE_ARDUINO_INTERRUPTS = false)
    (hP : s.Paused = false) (h : notTimeYet s.NextSampleMicros now = true) :
    sawNewSample cfg P now s = some (false, s) := by
  simp [sawNewSample, hM, hP, h]

theorem sawNewSample_polling_due (cfg : Config) (P : PulseSensor χ) (now : Nat)
    (s : PulseSensorPlayground χ) (hM : cfg.USE_ARDUINO_INTERRUPTS = false)
    (hP : s.Paused = false) (h : notTimeYet s.NextSampleMicros now = false) :
    sawNewSample cfg P now s =
      some (true, { s with NextSampleMicros := (now + cfg.MICROS_PER_READ) % 4294967296,
                           Sensors := s.Sensors.map (cycleChannel P),
                           Trace := s.Trace ++ cycleTrace s.Sensors.length,
                           SawNewSample := true }) := by
  simp [sawNewSample, hM, hP, h, onSampleTime_eq, addUL, ULONG_RANGE]

theorem outOfRange_at_SensorCount (s : PulseSensorPlayground χ) :
    outOfRange (s.SensorCount : Int) s = false := by
  have h : constrain (s.SensorCount : Int) 0 (s.SensorCount : Int) = (s.SensorCount : Int) := by
    unfold constrain
    split
    · omega
    · simp
  simp [outOfRange, h]

theorem outOfRange_of_lt_or_gt (sensorIndex : Int) (s : PulseSensorPlayground χ)
    (h : sensorIndex < 0 ∨ (s.SensorCount : Int) < sensorIndex) :
    outOfRange sensorIndex s = true := by
  simp only [outOfRange, constrain, decide_eq_true_eq]
  split
  · omega
  · split <;> omega

theorem invoke_at_SensorCount (call : SensorCall) (m : χ → α × χ) (s : PulseSensorPlayground χ) :
    invoke call m s.SensorCount s = none := by
  simp [invoke, SensorCount]

/-- Outside the closed range `0 .. SensorCount` each of the six accessors answers with its
"out of range" value and leaves the playground, its trace included, as it was. -/
theorem getters_reject_outside_closed_range (P : PulseSensor χ) (sensorIndex : Int)
    (s : PulseSensorPlayground χ) (h : sensorIndex < 0 ∨ (s.SensorCount : Int) < sensorIndex) :
    getLatestSample P sensorIndex s = some (-1, s) ∧
    getBeatsPerMinute P sensorIndex s = some (-1, s) ∧
    getInterBeatIntervalMs P sensorIndex s = some (-1, s) ∧
    getPulseAmplitude P sensorIndex s = some (-1, s) ∧
    sawStartOfBeat P sensorIndex s = some (false, s) ∧
    isInsideBeat P sensorIndex s = some (false, s) := by
  simp [getLatestSample, getBeatsPerMinute, getInterBeatIntervalMs, getPulseAmplitude,
    sawStartOfBeat, isInsideBeat, outOfRange_of_lt_or_gt sensorIndex s h]

/-- Outside the closed range `0 .. SensorCount` each of the four setters returns at once and
leaves the playground, its trace included, as it was. -/
theorem setters_reject_outside_closed_range (P : PulseSensor χ) (v sensorIndex : Int)
    (s : PulseSensorPlayground χ) (h : sensorIndex < 0 ∨ (s.SensorCount : Int) < sensorIndex) :
    analogInput P v sensorIndex s = some s ∧
    blinkOnPulse P v sensorIndex s = some s ∧
    fadeOnPulse P v sensorIndex s = some s ∧
    setThreshold P v sensorIndex s = some s := by
  simp [analogInput, blinkOnPulse, fadeOnPulse, setThreshold,
    outOfRange_of_lt_or_gt sensorIndex s h]

theorem count_map_pair (calls : List SensorCall) (n i : Nat) (c : SensorCall) :
    (calls.map fun d => (n, d)).count (i, c) = if i = n then calls.count c else 0 := by
  induction calls with
  | nil => simp
  | cons d ds ih =>
    simp only [List.map_cons, List.count_cons, ih, beq_iff_eq, Prod.mk.injEq]
    by_cases hi : i = n
    · by_cases hd : d = c <;> simp [hi, hd]
    · have hi2 : ¬ n = i := fun h => hi h.symm
      simp [hi, hi2]

theorem count_pass (calls : List SensorCall) (n i : Nat) (c : SensorCall) :
    (pass calls n).count (i, c) = if i < n then calls.count c else 0 := by
  induction n with
  | zero => simp [pass]
  | succ n ih =>
    have hs : pass calls (n + 1) = pass calls n ++ calls.map fun d => (n, d) := by
      simp [pass, List.range_succ, List.flatMap_append]
    rw [hs, List.count_append, ih, count_map_pair]
    by_cases h1 : i < n
    · have h2 : i ≠ n := by omega
      have h3 : i < n + 1 := by omega
      simp [h1, h2, h3]
    · by_cases h2 : i = n
      · simp [h2]
      · have h3 : ¬ i < n + 1 := by omega
        simp [h1, h2, h3]

theorem count_cycleTrace (n i : Nat) (h : i < n) :
    (cycleTrace n).count (i, SensorCall.readNextSample) = 1 ∧
    (cycleTrace n).count (i, SensorCall.processLatestSample) = 1 ∧
    (cycleTrace n).count (i, SensorCall.updateLEDs) = 1 := by
  simp [cycleTrace, List.count_append, count_pass, h, List.count_cons]

theorem pause_eq (cfg : Config) (P : PulseSensor χ) (disableOk : Bool)
    (s : PulseSensorPlayground χ) :
    pause cfg P disableOk s =
      if cfg.USE_ARDUINO_INTERRUPTS && !disableOk then some (false, { s with Paused := false })
      else some (true, { s with Sensors := s.Sensors.map P.resetVariables,
                                Trace := s.Trace ++ pass [.resetVariables] s.Sensors.length,
                                Paused := true }) := by
  unfold pause
  rw [forEachSensor_invokeVoid]
  cases cfg.USE_ARDUINO_INTERRUPTS <;> cases disableOk <;> simp

theorem begin_eq (cfg : Config) (P : PulseSensor χ) (setupOk : Bool) (micros : Nat)
    (s : PulseSensorPlayground χ) :
    begin cfg P setupOk micros s =
      some (!(cfg.USE_ARDUINO_INTERRUPTS && !setupOk),
        { Sensors := s.Sensors.map P.initializeLEDs
          Paused := cfg.USE_ARDUINO_INTERRUPTS && !setupOk
          SawNewSample := false
          NextSampleMicros := (micros + cfg.MICROS_PER_READ) % 4294967296
          Trace := s.Trace ++ pass [.initializeLEDs] s.Sensors.length }) := by
  unfold begin
  rw [forEachSensor_invokeVoid]
  cases cfg.USE_ARDUINO_INTERRUPTS <;> cases setupOk <;> simp [addUL, ULONG_RANGE]

theorem isCycle_of_isSignal (e : Call × Option Bool) (h : isSignal e = true) :
    isCycle e = false := by
  rcases e with ⟨c, r⟩
  cases c <;> simp_all [isSignal, isCycle]

/-- One call in interrupt mode: it returns, and a `true` from `sawNewSample()` uses up the
pending flag, which only `onSampleTime()` can raise. -/
theorem perform_interrupt (cfg : Config) (P : PulseSensor χ)
    (hI : cfg.USE_ARDUINO_INTERRUPTS = true) (c : Call) (s : PulseSensorPlayground χ) :
    ∃ r t, perform cfg P c s = some (r, t) ∧
      (isSignal (c, r)).toNat + t.SawNewSample.toNat
        ≤ (isCycle (c, r)).toNat + s.SawNewSample.toNat := by
  cases c with
  | onSampleTime =>
    refine ⟨none,
      { s with Sensors := s.Sensors.map (cycleChannel P),
               Trace := s.Trace ++ cycleTrace s.Sensors.length,
               SawNewSample := true }, by simp [perform, onSampleTime_eq], ?_⟩
    simp [isSignal, isCycle]
  | sawNewSample micros =>
    cases hP : s.Paused
    · refine ⟨some s.SawNewSample, { s with SawNewSample := false }, ?_, ?_⟩
      · simp [perform, sawNewSample, hI, hP]
      · cases h : s.SawNewSample <;> simp [isSignal, isCycle]
    · refine ⟨some false, s, ?_, ?_⟩
      · simp [perform, sawNewSample, hP]
      · simp [isSignal, isCycle]
  | pause disableOk =>
    cases disableOk
    · refine ⟨some false, { s with Paused := false }, ?_, ?_⟩
      · simp [perform, pause_eq, hI]
      · simp [isSignal, isCycle]
    · refine ⟨some true,
        { s with Sensors := s.Sensors.map P.resetVariables,
                 Trace := s.Trace ++ pass [.resetVariables] s.Sensors.length,
                 Paused := true }, ?_, ?_⟩
      · simp [perform, pause_eq, hI]
      · simp [isSignal, isCycle]
  | resume enableOk =>
    refine ⟨_, _, rfl, ?_⟩
    cases enableOk <;> simp [resume, hI, isSignal, isCycle]

/-- Any sequence of calls in interrupt mode, from any state: it runs to the end, and in its
history the signals of every prefix are bounded by the cycles of that prefix plus the flag
pending at the start; if no flag is pending at the start every signal comes after a cycle;
and two signals always have a cycle between them. -/
theorem runCalls_interrupt (cfg : Config) (P : PulseSensor χ)
    (hI : cfg.USE_ARDUINO_INTERRUPTS = true) (cs : List Call) :
    ∀ s : PulseSensorPlayground χ, ∃ hist t, runCalls cfg P cs s = some (hist, t) ∧
      hist.map Prod.fst = cs ∧
      (∀ k, (hist.take k).countP isSignal
        ≤ (hist.take k).countP isCycle + s.SawNewSample.toNat) ∧
      (s.SawNewSample = false → ∀ (j : Nat) (e : Call × Option Bool),
        hist[j]? = some e → isSignal e = true →
        ∃ (i : Nat) (e' : Call × Option Bool), i < j ∧ hist[i]? = some e' ∧ isCycle e' = true) ∧
      (∀ (i j : Nat) (ei ej : Call × Option Bool), i < j → hist[i]? = some ei → isSignal ei = true →
        hist[j]? = some ej → isSignal ej = true →
        ∃ (m : Nat) (em : Call × Option Bool), i < m ∧ m < j ∧ hist[m]? = some em ∧ isCycle em = true) := by
  induction cs with
  | nil =>
    intro s
    exact ⟨[], s, rfl, rfl, by simp, by simp, by simp⟩
  | cons c cs ih =>
    intro s
    obtain ⟨r, s1, hstep, hineq⟩ := perform_interrupt cfg P hI c s
    obtain ⟨hist, t, hrun, hmap, hA, hL, hR⟩ := ih s1
    refine ⟨(c, r) :: hist, t, by simp [runCalls, hstep, hrun], by simp [hmap], ?_, ?_, ?_⟩
    · intro k
      cases k with
      | zero => simp
      | succ k =>
        have := hA k
        simp only [List.take_succ_cons, List.countP_cons]
        cases h1 : isSignal (c, r) <;> cases h2 : isCycle (c, r) <;>
          simp [h1, h2] at hineq ⊢ <;> omega
    · intro hflag j e hj he
      cases j with
      | zero =>
        simp only [List.getElem?_cons_zero, Option.some.injEq] at hj
        subst hj
        have hc := isCycle_of_isSignal _ he
        simp [he, hc, hflag] at hineq
      | succ j =>
        simp only [List.getElem?_cons_succ] at hj
        cases h2 : isCycle (c, r)
        · have hflag1 : s1.SawNewSample = false := by
            cases h3 : s1.SawNewSample
            · rfl
            · simp [h2, hflag, h3] at hineq
          obtain ⟨i, e', hi, hie, hce⟩ := hL hflag1 j e hj he
          exact ⟨i + 1, e', by omega, by simpa using hie, hce⟩
        · exact ⟨0, (c, r), by omega, by simp, h2⟩
    · intro i j ei ej hij hi hei hj hej
      cases j with
      | zero => omega
      | succ j =>
        simp only [List.getElem?_cons_succ] at hj
        cases i with
        | zero =>
          simp only [List.getElem?_cons_zero, Option.some.injEq] at hi
          subst hi
          have hc := isCycle_of_isSignal _ hei
          have hflag1 : s1.SawNewSample = false := by
            cases h3 : s1.SawNewSample
            · rfl
            · cases h4 : s.SawNewSample <;> simp [hei, hc, h3, h4] at hineq
          obtain ⟨m, em, hm, hme, hce⟩ := hL hflag1 j ej hj hej
          exact ⟨m + 1, em, by omega, by omega, by simpa using hme, hce⟩
        | succ i =>
          simp only [List.getElem?_cons_succ] at hi
          obtain ⟨m, em, h1, h2, hme, hce⟩ := hR i j ei ej (by omega) hi hei hj hej
          exact ⟨m + 1, em, by omega, by omega, by simpa using hme, hce⟩

/-! ## Bounds-checked channel dispatch, the new-sample flag and the sample clock -/

/-- C1 (the code departs from the claim at `sensorIndex = SensorCount`): the guard
`sensorIndex != constrain(sensorIndex, 0, SensorCount)` lets the index `SensorCount` through,
so each of the six accessors goes on to `Sensors[SensorCount]`, one element past the array,
instead of answering -1 or false. With one channel this is index 1. -/
theorem getters_read_past_array_at_SensorCount (P : PulseSensor χ)
    (s : PulseSensorPlayground χ) :
    outOfRange (s.SensorCount : Int) s = false ∧
    getLatestSample P (s.SensorCount : Int) s = none ∧
    getBeatsPerMinute P (s.SensorCount : Int) s = none ∧
    getInterBeatIntervalMs P (s.SensorCount : Int) s = none ∧
    getPulseAmplitude P (s.SensorCount : Int) s = none ∧
    sawStartOfBeat P (s.SensorCount : Int) s = none ∧
    isInsideBeat P (s.SensorCount : Int) s = none ∧
    getLatestSample counting 1 oneIdle = none ∧
    getLatestSample counting 1 oneIdle ≠ some (-1, oneIdle) := by
  refine ⟨outOfRange_at_SensorCount s, ?_, ?_, ?_, ?_, ?_, ?_, by decide, by decide⟩ <;>
    simp [getLatestSample, getBeatsPerMinute, getInterBeatIntervalMs, getPulseAmplitude,
      sawStartOfBeat, isInsideBeat, outOfRange_at_SensorCount, invoke_at_SensorCount]

/-- C2 (the code departs from the claim at `sensorIndex = SensorCount`): the same guard lets
the index `SensorCount` through in every setter, so `analogInput`, `blinkOnPulse`,
`fadeOnPulse` and `setThreshold` call a member function on `Sensors[SensorCount]`, one
element past the array, instead of returning without effect. With one channel this is
index 1. -/
theorem setters_write_past_array_at_SensorCount (P : PulseSensor χ) (v : Int)
    (s : PulseSensorPlayground χ) :
    analogInput P v (s.SensorCount : Int) s = none ∧
    blinkOnPulse P v (s.SensorCount : Int) s = none ∧
    fadeOnPulse P v (s.SensorCount : Int) s = none ∧
    setThreshold P v (s.SensorCount : Int) s = none ∧
    setThreshold counting 550 1 oneIdle = none ∧
    setThreshold counting 550 1 oneIdle ≠ some oneIdle := by
  refine ⟨?_, ?_, ?_, ?_, by decide, by decide⟩ <;>
    simp [analogInput, blinkOnPulse, fadeOnPulse, setThreshold, invokeVoid,
      outOfRange_at_SensorCount, invoke_at_SensorCount]

/-- C3: in interrupt mode and not paused, `sawNewSample()` returns the value `SawNewSample`
had, leaves `SawNewSample = false`, and changes nothing else: `Paused`, `NextSampleMicros`,
every channel and the record of channel calls are as before. -/
theorem sawNewSample_interrupt_reads_and_clears (cfg : Config) (P : PulseSensor χ) (micros : Nat)
    (s : PulseSensorPlayground χ) (hI : cfg.USE_ARDUINO_INTERRUPTS = true)
    (hP : s.Paused = false) :
    sawNewSample cfg P micros s =
      some (s.SawNewSample,
        { Sensors := s.Sensors
          Paused := s.Paused
          SawNewSample := false
          NextSampleMicros := s.NextSampleMicros
          Trace := s.Trace }) := by
  simp [sawNewSample, hI, hP]

theorem sawNewSample_interrupt_reads_and_clears_witness :
    interruptMode.USE_ARDUINO_INTERRUPTS = true ∧ twoPending.Paused = false ∧
    sawNewSample interruptMode counting 0 twoPending =
      some (true,
        { Sensors := [3, 3]
          Paused := false
          SawNewSample := false
          NextSampleMicros := 2000
          Trace := cycleTrace 2 }) :=
  ⟨rfl, rfl, sawNewSample_interrupt_reads_and_clears interruptMode counting 0 twoPending rfl rfl⟩

/-- C4: at-most-one-signal law, interrupt mode. Start from the state a successful `begin()`
leaves and make any finite sequence of `onSampleTime()`, `sawNewSample()`, `pause()` and
`resume()` calls (with any outcomes of the interrupt collaborators). Every call returns;
among the first `k` calls, for every `k`, the `sawNewSample()` calls that returned true are
at most as many as the `onSampleTime()` calls; and between any two `sawNewSample()` calls
that both returned true there is an `onSampleTime()` call. -/
theorem at_most_one_signal_per_cycle (cfg : Config) (P : PulseSensor χ)
    (hI : cfg.USE_ARDUINO_INTERRUPTS = true) (micros : Nat) (s : PulseSensorPlayground χ)
    (cs : List Call) :
    ∃ s1 hist t, begin cfg P true micros s = some (true, s1) ∧
      runCalls cfg P cs s1 = some (hist, t) ∧
      hist.map Prod.fst = cs ∧
      (∀ k, (hist.take k).countP isSignal ≤ (hist.take k).countP isCycle) ∧
      (∀ (i j : Nat) (ei ej : Call × Option Bool), i < j → hist[i]? = some ei → isSignal ei = true →
        hist[j]? = some ej → isSignal ej = true →
        ∃ (m : Nat) (em : Call × Option Bool), i < m ∧ m < j ∧ hist[m]? = some em ∧ isCycle em = true) := by
  have hb := begin_eq cfg P true micros s
  simp only [hI, Bool.not_true, Bool.and_false, Bool.not_false] at hb
  obtain ⟨hist, t, hrun, hmap, hA, _, hR⟩ := runCalls_interrupt cfg P hI cs _
  exact ⟨_, hist, t, hb, hrun, hmap, fun k => by simpa using hA k, hR⟩

theorem at_most_one_signal_per_cycle_witness :
    interruptMode.USE_ARDUINO_INTERRUPTS = true ∧
    ((begin interruptMode counting true 0 twoPending).bind fun b =>
      (runCalls interruptMode counting twoCyclesThenPolls b.2).map Prod.fst) =
      some [(.sawNewSample 0, some false), (.onSampleTime, none), (.onSampleTime, none),
        (.sawNewSample 0, some true), (.pause true, some true), (.resume true, some true),
        (.sawNewSample 0, some false)] ∧
    ∃ s1 hist t, begin interruptMode counting true 0 twoPending = some (true, s1) ∧
      runCalls interruptMode counting twoCyclesThenPolls s1 = some (hist, t) ∧
      hist.map Prod.fst = twoCyclesThenPolls ∧
      (∀ k, (hist.take k).countP isSignal ≤ (hist.take k).countP isCycle) ∧
      (∀ (i j : Nat) (ei ej : Call × Option Bool), i < j →
        hist[i]? = some ei → isSignal ei = true →
        hist[j]? = some ej → isSignal ej = true →
        ∃ (m : Nat) (em : Call × Option Bool), i < m ∧ m < j ∧ hist[m]? = some em ∧ isCycle em = true) :=
  ⟨rfl, by decide,
    at_most_one_signal_per_cycle interruptMode counting rfl 0 twoPending twoCyclesThenPolls⟩

/-- C5: while `Paused` is true, `sawNewSample()` returns false in interrupt mode and in
polling mode alike, whatever `SawNewSample`, `NextSampleMicros` and the clock are, and the
playground (flag, timestamp, run state, channels, record of channel calls) is unchanged. -/
theorem sawNewSample_paused (cfg : Config) (P : PulseSensor χ) (micros : Nat)
    (s : PulseSensorPlayground χ) (hP : s.Paused = true) :
    sawNewSample cfg P micros s = some (false, s) := by
  simp [sawNewSample, hP]

theorem sawNewSample_paused_witness :
    ({ twoPending with Paused := true } : PulseSensorPlayground Nat).Paused = true ∧
    sawNewSample interruptMode counting 2100 { twoPending with Paused := true } =
      some (false, { twoPending with Paused := true }) ∧
    sawNewSample pollingMode counting 2100 { twoPending with Paused := true } =
      some (false, { twoPending with Paused := true }) :=
  ⟨rfl, sawNewSample_paused interruptMode counting 2100 _ rfl,
    sawNewSample_paused pollingMode counting 2100 _ rfl⟩

/-- C6, as stated, fails: with one channel and `Paused = true`, `onSampleTime()` reads and
processes the channel and raises `SawNewSample` from false to true. -/
theorem onSampleTime_runs_while_paused :
    onePaused.Paused = true ∧ onePaused.SawNewSample = false ∧
    onSampleTime counting onePaused =
      some
        { Sensors := [3]
          Paused := true
          SawNewSample := true
          NextSampleMicros := 2000
          Trace := [(0, .readNextSample), (0, .processLatestSample), (0, .updateLEDs)] } := by
  decide

/-- C6, amended: the check of `Paused` sits in `sawNewSample()`, not in `onSampleTime()`.
For every state with `Paused = true` and every sensor count, `sawNewSample()` (either mode)
returns false without entering the cycle: no channel call is made and `SawNewSample` keeps
its value. `onSampleTime()` called directly does not look at `Paused`: it runs the whole
cycle over all channels and leaves `SawNewSample = true`, with `Paused` still true. -/
theorem paused_gate_is_in_sawNewSample (cfg : Config) (P : PulseSensor χ) (micros : Nat)
    (s : PulseSensorPlayground χ) (hP : s.Paused = true) :
    sawNewSample cfg P micros s = some (false, s) ∧
    onSampleTime P s =
      some
        { Sensors := s.Sensors.map (cycleChannel P)
          Paused := true
          SawNewSample := true
          NextSampleMicros := s.NextSampleMicros
          Trace := s.Trace ++ cycleTrace s.SensorCount } := by
  refine ⟨by simp [sawNewSample, hP], ?_⟩
  rw [onSampleTime_eq, ← hP]
  rfl

theorem paused_gate_is_in_sawNewSample_witness :
    onePaused.Paused = true ∧
    sawNewSample pollingMode counting 2100 onePaused = some (false, onePaused) ∧
    onSampleTime counting onePaused =
      some
        { Sensors := [3]
          Paused := true
          SawNewSample := true
          NextSampleMicros := 2000
          Trace := [(0, .readNextSample), (0, .processLatestSample), (0, .updateLEDs)] } :=
  ⟨rfl, paused_gate_is_in_sawNewSample pollingMode counting 2100 onePaused rfl⟩

/-- C7: in polling mode and not paused, `sawNewSample()` read at clock value `micros`
(a) returns false and leaves the playground unchanged, with no channel call, when the sample
is not yet due, that is when `(NextSampleMicros - micros) mod 2^32` lies in `1 .. 2^31 - 1`;
(b) otherwise returns true after exactly one acquisition cycle: every channel has gone through
`readNextSample`, `processLatestSample` and `updateLEDs`, the calls recorded are those of one
cycle over all `SensorCount` channels, in which each channel is read once and processed once,
and `SawNewSample` is true. -/
theorem sawNewSample_polling_acquires_when_due (cfg : Config) (P : PulseSensor χ) (micros : Nat)
    (s : PulseSensorPlayground χ) (hM : cfg.USE_ARDUINO_INTERRUPTS = false)
    (hP : s.Paused = false) :
    ((1 ≤ ((s.NextSampleMicros : Int) - micros) % 4294967296 ∧
        ((s.NextSampleMicros : Int) - micros) % 4294967296 ≤ 2147483647) →
      sawNewSample cfg P micros s = some (false, s)) ∧
    (¬ (1 ≤ ((s.NextSampleMicros : Int) - micros) % 4294967296 ∧
        ((s.NextSampleMicros : Int) - micros) % 4294967296 ≤ 2147483647) →
      sawNewSample cfg P micros s =
        some (true,
          { Sensors := s.Sensors.map (cycleChannel P)
            Paused := false
            SawNewSample := true
            NextSampleMicros := (micros + cfg.MICROS_PER_READ) % 4294967296
            Trace := s.Trace ++ cycleTrace s.SensorCount }) ∧
      ∀ i, i < s.SensorCount →
        (cycleTrace s.SensorCount).count (i, SensorCall.readNextSample) = 1 ∧
        (cycleTrace s.SensorCount).count (i, SensorCall.processLatestSample) = 1 ∧
        (cycleTrace s.SensorCount).count (i, SensorCall.updateLEDs) = 1) := by
  constructor
  · intro h
    exact sawNewSample_polling_early cfg P micros s hM hP ((notTimeYet_iff _ _).mpr h)
  · intro h
    have hd : notTimeYet s.NextSampleMicros micros = false := by
      rw [← Bool.not_eq_true, notTimeYet_iff]
      exact h
    refine ⟨?_, fun i hi => count_cycleTrace _ i hi⟩
    rw [sawNewSample_polling_due cfg P micros s hM hP hd, ← hP]
    rfl

theorem sawNewSample_polling_acquires_when_due_witness :
    pollingMode.USE_ARDUINO_INTERRUPTS = false ∧ twoIdle.Paused = false ∧
    sawNewSample pollingMode counting 1500 twoIdle = some (false, twoIdle) ∧
    sawNewSample pollingMode counting 2100 twoIdle =
      some (true,
        { Sensors := [3, 3]
          Paused := false
          SawNewSample := true
          NextSampleMicros := 4100
          Trace := [(0, .readNextSample), (1, .readNextSample),
                    (0, .processLatestSample), (0, .updateLEDs),
                    (1, .processLatestSample), (1, .updateLEDs)] }) :=
  ⟨rfl, rfl,
    (sawNewSample_polling_acquires_when_due pollingMode counting 1500 twoIdle rfl rfl).1 (by decide),
    ((sawNewSample_polling_acquires_when_due pollingMode counting 2100 twoIdle rfl rfl).2 (by decide)).1⟩

/-- C8, as stated, fails: with period 2000, `NextSampleMicros = 2000` and the clock at 2100,
polling-mode `sawNewSample()` returns true and leaves `NextSampleMicros = 4100`, which is
not `2000 + 2000`. -/
theorem sawNewSample_next_due_is_not_old_plus_period :
    (sawNewSample pollingMode counting 2100 twoIdle).map (fun r => (r.1, r.2.NextSampleMicros))
      = some (true, 4100) ∧
    4100 ≠ (twoIdle.NextSampleMicros + pollingMode.MICROS_PER_READ) % 4294967296 := by
  decide

/-- C8, amended: in polling mode, whenever `sawNewSample()` finds a sample due (not paused,
`(micros - NextSampleMicros) mod 2^32 <= 2^31`), it returns true and the new
`NextSampleMicros` is `micros + MICROS_PER_READ` modulo `2^32`, where `micros` is the clock
reading of that call; this equals the old `NextSampleMicros + MICROS_PER_READ` modulo `2^32`
exactly when the clock reading equals the old `NextSampleMicros` modulo `2^32`. -/
theorem sawNewSample_next_due_is_now_plus_period (cfg : Config) (P : PulseSensor χ)
    (micros : Nat) (s : PulseSensorPlayground χ) (hM : cfg.USE_ARDUINO_INTERRUPTS = false)
    (hP : s.Paused = false)
    (hdue : ((micros : Int) - s.NextSampleMicros) % 4294967296 ≤ 2147483648) :
    ∃ t, sawNewSample cfg P micros s = some (true, t) ∧
      t.NextSampleMicros = (micros + cfg.MICROS_PER_READ) % 4294967296 ∧
      (t.NextSampleMicros = (s.NextSampleMicros + cfg.MICROS_PER_READ) % 4294967296 ↔
        micros % 4294967296 = s.NextSampleMicros % 4294967296) := by
  have hd : notTimeYet s.NextSampleMicros micros = false := (notTimeYet_false_iff _ _).mpr hdue
  refine ⟨_, sawNewSample_polling_due cfg P micros s hM hP hd, rfl, ?_⟩
  show (micros + cfg.MICROS_PER_READ) % 4294967296
      = (s.NextSampleMicros + cfg.MICROS_PER_READ) % 4294967296 ↔ _
  omega

theorem sawNewSample_next_due_is_now_plus_period_witness :
    pollingMode.USE_ARDUINO_INTERRUPTS = false ∧ twoIdle.Paused = false ∧
    ((2100 : Int) - twoIdle.NextSampleMicros) % 4294967296 ≤ 2147483648 ∧
    ∃ t, sawNewSample pollingMode counting 2100 twoIdle = some (true, t) ∧
      t.NextSampleMicros = (2100 + pollingMode.MICROS_PER_READ) % 4294967296 ∧
      (t.NextSampleMicros = (twoIdle.NextSampleMicros + pollingMode.MICROS_PER_READ) % 4294967296 ↔
        2100 % 4294967296 = twoIdle.NextSampleMicros % 4294967296) :=
  ⟨rfl, rfl, by decide,
    sawNewSample_next_due_is_now_plus_period pollingMode counting 2100 twoIdle rfl rfl (by decide)⟩

/-- C9: the due test of polling-mode `sawNewSample()` is wraparound-safe. With
`NextSampleMicros` and the clock reading `micros` both 32-bit words, and not paused, the
call returns true (sample due) exactly when `(micros - NextSampleMicros) mod 2^32 <= 2^31`,
and returns false (not due) exactly when `1 <= (NextSampleMicros - micros) mod 2^32 <=
2^31 - 1`. In particular with `NextSampleMicros = 2^32 - d` and the clock wrapped to `micros`,
where `1 <= d` and `d + micros <= 2^31`, the sample is due, and with the clock at
`NextSampleMicros - 1` modulo `2^32` it is not. -/
theorem sawNewSample_due_test_wraparound (cfg : Config) (P : PulseSensor χ) (micros : Nat)
    (s : PulseSensorPlayground χ) (hM : cfg.USE_ARDUINO_INTERRUPTS = false)
    (hP : s.Paused = false) (hnext : s.NextSampleMicros < 4294967296)
    (hnow : micros < 4294967296) :
    ((sawNewSample cfg P micros s).map Prod.fst = some true ↔
        ((micros : Int) - s.NextSampleMicros) % 4294967296 ≤ 2147483648) ∧
    ((sawNewSample cfg P micros s).map Prod.fst = some false ↔
        (1 ≤ ((s.NextSampleMicros : Int) - micros) % 4294967296 ∧
          ((s.NextSampleMicros : Int) - micros) % 4294967296 ≤ 2147483647)) ∧
    (∀ d : Nat, 1 ≤ d → s.NextSampleMicros = 4294967296 - d → d + micros ≤ 2147483648 →
      (sawNewSample cfg P micros s).map Prod.fst = some true) ∧
    (micros = (s.NextSampleMicros + 4294967295) % 4294967296 →
      (sawNewSample cfg P micros s).map Prod.fst = some false) := by
  have key : (sawNewSample cfg P micros s).map Prod.fst
      = some (!notTimeYet s.NextSampleMicros micros) := by
    cases h : notTimeYet s.NextSampleMicros micros
    · rw [sawNewSample_polling_due cfg P micros s hM hP h]
      rfl
    · rw [sawNewSample_polling_early cfg P micros s hM hP h]
      rfl
  rw [key]
  refine ⟨?_, ?_, ?_, ?_⟩
  · rw [← notTimeYet_false_iff]
    cases notTimeYet s.NextSampleMicros micros <;> simp
  · rw [← notTimeYet_iff]
    cases notTimeYet s.NextSampleMicros micros <;> simp
  · intro d hd hs hde
    have : notTimeYet s.NextSampleMicros micros = false := by
      rw [notTimeYet_false_iff]
      omega
    simp [this]
  · intro hm
    have : notTimeYet s.NextSampleMicros micros = true := by
      rw [notTimeYet_iff]
      omega
    simp [this]

theorem sawNewSample_due_test_wraparound_witness :
    pollingMode.USE_ARDUINO_INTERRUPTS = false ∧
    ({ twoIdle with NextSampleMicros := 4294967291 } : PulseSensorPlayground Nat).Paused = false ∧
    (4294967291 : Nat) < 4294967296 ∧ (7 : Nat) < 4294967296 ∧
    (sawNewSample pollingMode counting 7 { twoIdle with NextSampleMicros := 4294967291 }).map
      Prod.fst = some true :=
  ⟨rfl, rfl, by decide, by decide,
    (sawNewSample_due_test_wraparound pollingMode counting 7
      { twoIdle with NextSampleMicros := 4294967291 } rfl rfl (by decide) (by decide)).2.2.1
      5 (by decide) rfl (by decide)⟩

/-- C10: in polling mode a due sample is reported once. For a period with
`0 < MICROS_PER_READ < 2^31`, a state that is not paused, and clock readings `now1`, `now2`
with `(now2 - now1) mod 2^32 < MICROS_PER_READ`: if `sawNewSample()` at `now1` returns true,
then the next `sawNewSample()`, at `now2`, returns false and leaves the playground as the
first call left it (no channel call, no acquisition), also when `now1 + MICROS_PER_READ`
wraps past `2^32`. -/
theorem sawNewSample_reports_due_sample_once (cfg : Config) (P : PulseSensor χ)
    (now1 now2 : Nat) (s t : PulseSensorPlayground χ)
    (hM : cfg.USE_ARDUINO_INTERRUPTS = false) (hP : s.Paused = false)
    (hpos : 0 < cfg.MICROS_PER_READ) (hlt : cfg.MICROS_PER_READ < 2147483648)
    (hgap : ((now2 : Int) - now1) % 4294967296 < cfg.MICROS_PER_READ)
    (hfirst : sawNewSample cfg P now1 s = some (true, t)) :
    sawNewSample cfg P now2 t = some (false, t) := by
  cases h : notTimeYet s.NextSampleMicros now1
  · rw [sawNewSample_polling_due cfg P now1 s hM hP h] at hfirst
    have ht : t = _ := ((Prod.mk.injEq _ _ _ _).mp (Option.some.inj hfirst)).2.symm
    have htP : t.Paused = false := by rw [ht]; exact hP
    have htN : t.NextSampleMicros = (now1 + cfg.MICROS_PER_READ) % 4294967296 := by rw [ht]
    apply sawNewSample_polling_early cfg P now2 t hM htP
    rw [notTimeYet_iff, htN]
    omega
  · rw [sawNewSample_polling_early cfg P now1 s hM hP h] at hfirst
    simp at hfirst

theorem sawNewSample_reports_due_sample_once_witness :
    pollingMode.USE_ARDUINO_INTERRUPTS = false ∧
    ({ twoIdle with NextSampleMicros := 4294967000 } : PulseSensorPlayground Nat).Paused = false ∧
    0 < pollingMode.MICROS_PER_READ ∧ pollingMode.MICROS_PER_READ < 2147483648 ∧
    ((400 : Int) - 4294967196) % 4294967296 < pollingMode.MICROS_PER_READ ∧
    sawNewSample pollingMode counting 4294967196 { twoIdle with NextSampleMicros := 4294967000 } =
      some (true, { twoPending with NextSampleMicros := 1900 }) ∧
    sawNewSample pollingMode counting 400 { twoPending with NextSampleMicros := 1900 } =
      some (false, { twoPending with NextSampleMicros := 1900 }) :=
  ⟨rfl, rfl, by decide, by decide, by decide, by decide,
    sawNewSample_reports_due_sample_once pollingMode counting 4294967196 400
      { twoIdle with NextSampleMicros := 4294967000 }
      { twoPending with NextSampleMicros := 1900 } rfl rfl (by decide) (by decide) (by decide)
      (by decide)⟩

/-! ## Acquisition order, run control, the flag race and construction -/

theorem mem_pass (calls : List SensorCall) (n i : Nat) (c : SensorCall) :
    (i, c) ∈ pass calls n ↔ i < n ∧ c ∈ calls := by
  simp [pass, List.mem_flatMap]

theorem length_pass_single (c : SensorCall) (n : Nat) : (pass [c] n).length = n := by
  induction n with
  | zero => simp [pass]
  | succ n ih =>
    have hs : pass [c] (n + 1) = pass [c] n ++ [(n, c)] := by
      simp [pass, List.range_succ, List.flatMap_append]
    rw [hs, List.length_append, ih]
    rfl

theorem pass_single_eq_map (c : SensorCall) (n : Nat) :
    pass [c] n = (List.range n).map fun i => (i, c) := by
  induction n with
  | zero => simp [pass]
  | succ n ih =>
    have hs : pass [c] (n + 1) = pass [c] n ++ [(n, c)] := by
      simp [pass, List.range_succ, List.flatMap_append]
    rw [hs, ih, List.range_succ, List.map_append]
    rfl

/-- In the record of one cycle every `readNextSample` entry comes before every
`processLatestSample` entry. -/
theorem cycleTrace_reads_first (n a b i j : Nat)
    (ha : (cycleTrace n)[a]? = some (i, SensorCall.readNextSample))
    (hb : (cycleTrace n)[b]? = some (j, SensorCall.processLatestSample)) : a < b := by
  unfold cycleTrace at ha hb
  have hlen := length_pass_single SensorCall.readNextSample n
  have ha' : a < n := by
    by_contra hge
    rw [List.getElem?_append_right (by omega)] at ha
    have hm := List.getElem?_mem ha
    rw [mem_pass] at hm
    simp at hm
  have hb' : n ≤ b := by
    by_contra hlt
    rw [List.getElem?_append_left (by omega)] at hb
    have hm := List.getElem?_mem hb
    rw [mem_pass] at hm
    simp at hm
  omega

/-- C11: for every sensor count, one `onSampleTime()` call returns, and the channel calls it
adds to the record are exactly `readNextSample` on channels 0, 1, ..., N-1 followed by
`processLatestSample` and `updateLEDs` on channel 0, then on channel 1, ..., then on channel
N-1. Hence every `readNextSample` precedes every `processLatestSample`, each channel is read
once and processed once, and `SawNewSample` is true on return (nothing else changes). -/
theorem onSampleTime_reads_all_then_processes_all (P : PulseSensor χ)
    (s : PulseSensorPlayground χ) :
    onSampleTime P s =
      some
        { Sensors := s.Sensors.map fun x =>
            P.updateLEDs (P.processLatestSample (P.readNextSample x))
          Paused := s.Paused
          SawNewSample := true
          NextSampleMicros := s.NextSampleMicros
          Trace := s.Trace ++ cycleTrace s.SensorCount } ∧
    cycleTrace s.SensorCount =
      ((List.range s.SensorCount).map fun i => (i, SensorCall.readNextSample)) ++
      ((List.range s.SensorCount).flatMap fun i =>
        [(i, SensorCall.processLatestSample), (i, SensorCall.updateLEDs)]) ∧
    (∀ a b i j : Nat, (cycleTrace s.SensorCount)[a]? = some (i, SensorCall.readNextSample) →
      (cycleTrace s.SensorCount)[b]? = some (j, SensorCall.processLatestSample) → a < b) ∧
    (∀ i : Nat, i < s.SensorCount →
      (cycleTrace s.SensorCount).count (i, SensorCall.readNextSample) = 1 ∧
      (cycleTrace s.SensorCount).count (i, SensorCall.processLatestSample) = 1 ∧
      (cycleTrace s.SensorCount).count (i, SensorCall.updateLEDs) = 1) := by
  refine ⟨?_, ?_, fun a b i j ha hb => cycleTrace_reads_first _ a b i j ha hb,
    fun i hi => count_cycleTrace _ i hi⟩
  · rw [onSampleTime_eq]
    rfl
  · rw [cycleTrace, pass_single_eq_map]
    simp [pass]

theorem onSampleTime_reads_all_then_processes_all_witness :
    onSampleTime counting twoIdle =
      some
        { Sensors := [3, 3]
          Paused := false
          SawNewSample := true
          NextSampleMicros := 2000
          Trace := [(0, .readNextSample), (1, .readNextSample),
                    (0, .processLatestSample), (0, .updateLEDs),
                    (1, .processLatestSample), (1, .updateLEDs)] } :=
  (onSampleTime_reads_all_then_processes_all counting twoIdle).1

theorem perform_paused (cfg : Config) (P : PulseSensor χ) (c : Call)
    (s : PulseSensorPlayground χ) (hP : s.Paused = true) (hc : unpauses cfg c = false) :
    ∃ r t, perform cfg P c s = some (r, t) ∧ t.Paused = true ∧
      ∀ m, c = Call.sawNewSample m → r = some false := by
  cases c with
  | onSampleTime =>
    refine ⟨none,
      { s with Sensors := s.Sensors.map (cycleChannel P),
               Trace := s.Trace ++ cycleTrace s.Sensors.length,
               SawNewSample := true }, by simp [perform, onSampleTime_eq], hP, ?_⟩
    intro m hm
    cases hm
  | sawNewSample micros =>
    exact ⟨some false, s, by simp [perform, sawNewSample, hP], hP, fun _ _ => rfl⟩
  | pause disableOk =>
    have hcond : (cfg.USE_ARDUINO_INTERRUPTS && !disableOk) = false := hc
    refine ⟨some true,
      { s with Sensors := s.Sensors.map P.resetVariables,
               Trace := s.Trace ++ pass [.resetVariables] s.Sensors.length,
               Paused := true }, by simp [perform, pause_eq, hcond], rfl, ?_⟩
    intro m hm
    cases hm
  | resume enableOk =>
    have hcond : (!cfg.USE_ARDUINO_INTERRUPTS || enableOk) = false := hc
    have hI : cfg.USE_ARDUINO_INTERRUPTS = true := by
      cases h : cfg.USE_ARDUINO_INTERRUPTS <;> simp [h] at hcond ⊢
    have hE : enableOk = false := by
      cases h : enableOk <;> simp [h, hI] at hcond ⊢
    refine ⟨_, _, rfl, by simp [resume, hI, hE], ?_⟩
    intro m hm
    cases hm

/-- While `Paused` is true and no call of the sequence clears it, the sequence runs to the
end, `Paused` is still true, and every `sawNewSample()` in it returned false. -/
theorem runCalls_paused (cfg : Config) (P : PulseSensor χ) (cs : List Call) :
    ∀ s : PulseSensorPlayground χ, s.Paused = true → (∀ c ∈ cs, unpauses cfg c = false) →
      ∃ hist t, runCalls cfg P cs s = some (hist, t) ∧ hist.map Prod.fst = cs ∧
        t.Paused = true ∧
        ∀ (m : Nat) (r : Option Bool), (Call.sawNewSample m, r) ∈ hist → r = some false := by
  induction cs with
  | nil =>
    intro s hP _
    exact ⟨[], s, rfl, rfl, hP, by simp⟩
  | cons c cs ih =>
    intro s hP hcs
    obtain ⟨r, s1, hstep, hP1, hr⟩ :=
      perform_paused cfg P c s hP (hcs c (List.mem_cons_self _ _))
    obtain ⟨hist, t, hrun, hmap, hPt, hall⟩ :=
      ih s1 hP1 (fun d hd => hcs d (List.mem_cons_of_mem _ hd))
    refine ⟨(c, r) :: hist, t, by simp [runCalls, hstep, hrun], by simp [hmap], hPt, ?_⟩
    intro m r' hmem
    rcases List.mem_cons.mp hmem with heq | htail
    · have h1 : Call.sawNewSample m = c := (Prod.mk.injEq _ _ _ _ ▸ heq).1
      have h2 : r' = r := (Prod.mk.injEq _ _ _ _ ▸ heq).2
      rw [h2]
      exact hr m h1.symm
    · exact hall m r' htail

/-- C12, as stated, fails: in interrupt mode, after a `pause()` that succeeded on a
playground with a sample pending, a second `pause()` that fails clears `Paused`, and the
`sawNewSample()` that follows returns true although no `resume()` was called. -/
theorem sawNewSample_true_after_pause_without_resume :
    ((pause interruptMode counting true twoPending).bind fun r =>
      (runCalls interruptMode counting [.pause false, .sawNewSample 0] r.2).map fun h =>
        (r.1, r.2.Paused, h.1)) =
      some (true, true, [(.pause false, some false), (.sawNewSample 0, some true)]) := by
  decide

/-- C12, amended: when `pause()` succeeds (interrupt mode with the interrupt disabled, or
polling mode, where it cannot fail) it returns true, leaves `Paused = true`, and has called
`resetVariables` exactly once on each of the channels 0 .. N-1, and nothing else, before
returning. Every `sawNewSample()` called afterwards returns false for as long as `Paused`
stays true: through any sequence of `onSampleTime()`, `sawNewSample()`, `pause()` and
`resume()` calls in which no `resume()` succeeds and, in interrupt mode, no `pause()`
fails (a failing `pause()` sets `Paused = false`). -/
theorem pause_success_resets_and_gates (cfg : Config) (P : PulseSensor χ) (disableOk : Bool)
    (s : PulseSensorPlayground χ) (cs : List Call)
    (hok : cfg.USE_ARDUINO_INTERRUPTS = false ∨ disableOk = true)
    (hcs : ∀ c ∈ cs, unpauses cfg c = false) :
    ∃ s1 hist t, pause cfg P disableOk s = some (true, s1) ∧
      s1 =
        { Sensors := s.Sensors.map P.resetVariables
          Paused := true
          SawNewSample := s.SawNewSample
          NextSampleMicros := s.NextSampleMicros
          Trace := s.Trace ++ (List.range s.SensorCount).map fun i =>
            (i, SensorCall.resetVariables) } ∧
      (∀ i : Nat, i < s.SensorCount →
        ((List.range s.SensorCount).map fun i => (i, SensorCall.resetVariables)).count
          (i, SensorCall.resetVariables) = 1) ∧
      runCalls cfg P cs s1 = some (hist, t) ∧ hist.map Prod.fst = cs ∧
      ∀ (m : Nat) (r : Option Bool), (Call.sawNewSample m, r) ∈ hist → r = some false := by
  have hcond : (cfg.USE_ARDUINO_INTERRUPTS && !disableOk) = false := by
    rcases hok with h | h <;> simp [h]
  have hp := pause_eq cfg P disableOk s
  simp only [hcond, Bool.false_eq_true, if_false] at hp
  obtain ⟨hist, t, hrun, hmap, _, hall⟩ := runCalls_paused cfg P cs
    { s with Sensors := s.Sensors.map P.resetVariables,
             Trace := s.Trace ++ pass [.resetVariables] s.Sensors.length,
             Paused := true } rfl hcs
  refine ⟨_, hist, t, hp, ?_, ?_, hrun, hmap, hall⟩
  · simp [pass_single_eq_map, SensorCount]
  · intro i hi
    rw [← pass_single_eq_map, count_pass]
    simp [hi]

theorem pause_success_resets_and_gates_witness :
    (interruptMode.USE_ARDUINO_INTERRUPTS = false ∨ true = true) ∧
    (∀ c ∈ [Call.onSampleTime, Call.sawNewSample 0, Call.resume false, Call.pause true,
        Call.sawNewSample 1], unpauses interruptMode c = false) ∧
    ∃ s1 hist t, pause interruptMode counting true twoPending = some (true, s1) ∧
      s1 =
        { Sensors := twoPending.Sensors.map counting.resetVariables
          Paused := true
          SawNewSample := twoPending.SawNewSample
          NextSampleMicros := twoPending.NextSampleMicros
          Trace := twoPending.Trace ++ (List.range twoPending.SensorCount).map fun i =>
            (i, SensorCall.resetVariables) } ∧
      (∀ i : Nat, i < twoPending.SensorCount →
        ((List.range twoPending.SensorCount).map fun i => (i, SensorCall.resetVariables)).count
          (i, SensorCall.resetVariables) = 1) ∧
      runCalls interruptMode counting
        [Call.onSampleTime, Call.sawNewSample 0, Call.resume false, Call.pause true,
          Call.sawNewSample 1] s1 = some (hist, t) ∧
      hist.map Prod.fst =
        [Call.onSampleTime, Call.sawNewSample 0, Call.resume false, Call.pause true,
          Call.sawNewSample 1] ∧
      ∀ (m : Nat) (r : Option Bool), (Call.sawNewSample m, r) ∈ hist → r = some false :=
  ⟨Or.inr rfl, by decide,
    pause_success_resets_and_gates interruptMode counting true twoPending _ (Or.inr rfl)
      (by decide)⟩

/-- C13: in interrupt mode and not paused, a `pause()` whose trigger suppression fails
returns false and leaves the playground exactly as it was: `Paused` is still false and no
`resetVariables` was called. A following `onSampleTime()` runs the whole cycle, reading and
processing all N channels, and the `sawNewSample()` after it returns true. -/
theorem pause_failure_keeps_sampling (cfg : Config) (P : PulseSensor χ) (micros : Nat)
    (s : PulseSensorPlayground χ) (hI : cfg.USE_ARDUINO_INTERRUPTS = true)
    (hP : s.Paused = false) :
    pause cfg P false s = some (false, s) ∧
    onSampleTime P s =
      some
        { Sensors := s.Sensors.map (cycleChannel P)
          Paused := false
          SawNewSample := true
          NextSampleMicros := s.NextSampleMicros
          Trace := s.Trace ++ cycleTrace s.SensorCount } ∧
    sawNewSample cfg P micros
        { Sensors := s.Sensors.map (cycleChannel P)
          Paused := false
          SawNewSample := true
          NextSampleMicros := s.NextSampleMicros
          Trace := s.Trace ++ cycleTrace s.SensorCount } =
      some (true,
        { Sensors := s.Sensors.map (cycleChannel P)
          Paused := false
          SawNewSample := false
          NextSampleMicros := s.NextSampleMicros
          Trace := s.Trace ++ cycleTrace s.SensorCount }) := by
  refine ⟨?_, ?_, ?_⟩
  · rw [pause_eq]
    simp only [hI, Bool.not_false, Bool.and_self, if_true]
    rw [← hP]
  · rw [onSampleTime_eq, ← hP]
    rfl
  · simp [sawNewSample, hI]

theorem pause_failure_keeps_sampling_witness :
    interruptMode.USE_ARDUINO_INTERRUPTS = true ∧ twoIdle.Paused = false ∧
    pause interruptMode counting false twoIdle = some (false, twoIdle) ∧
    onSampleTime counting twoIdle =
      some
        { Sensors := twoIdle.Sensors.map (cycleChannel counting)
          Paused := false
          SawNewSample := true
          NextSampleMicros := twoIdle.NextSampleMicros
          Trace := twoIdle.Trace ++ cycleTrace twoIdle.SensorCount } ∧
    sawNewSample interruptMode counting 0
        { Sensors := twoIdle.Sensors.map (cycleChannel counting)
          Paused := false
          SawNewSample := true
          NextSampleMicros := twoIdle.NextSampleMicros
          Trace := twoIdle.Trace ++ cycleTrace twoIdle.SensorCount } =
      some (true,
        { Sensors := twoIdle.Sensors.map (cycleChannel counting)
          Paused := false
          SawNewSample := false
          NextSampleMicros := twoIdle.NextSampleMicros
          Trace := twoIdle.Trace ++ cycleTrace twoIdle.SensorCount }) :=
  ⟨rfl, rfl, pause_failure_keeps_sampling interruptMode counting 0 twoIdle rfl rfl⟩

/-- C14, as stated, fails: in interrupt mode a failing `pause()` on a paused playground
leaves `Paused = false`, and a failing `resume()` on a running playground leaves
`Paused = true`; neither is the value before the call. -/
theorem run_state_not_rolled_back_on_failure :
    onePaused.Paused = true ∧
    (pause interruptMode counting false onePaused).map (fun r => (r.1, r.2.Paused))
      = some (false, false) ∧
    oneIdle.Paused = false ∧
    ((resume interruptMode false oneIdle).1, (resume interruptMode false oneIdle).2.Paused)
      = (false, true) := by
  decide

/-- C14, amended: in interrupt mode, for every state before the call, a failing `pause()`
returns false and leaves `Paused = false`, and a failing `resume()` returns false and leaves
`Paused = true`; nothing else changes. So the run state after a failing `pause()` is the
one before the call when the playground was running, and the run state after a failing
`resume()` is the one before the call when the playground was paused. -/
theorem run_state_after_failure (cfg : Config) (P : PulseSensor χ)
    (s : PulseSensorPlayground χ) (hI : cfg.USE_ARDUINO_INTERRUPTS = true) :
    pause cfg P false s =
      some (false,
        { Sensors := s.Sensors
          Paused := false
          SawNewSample := s.SawNewSample
          NextSampleMicros := s.NextSampleMicros
          Trace := s.Trace }) ∧
    resume cfg false s =
      (false,
        { Sensors := s.Sensors
          Paused := true
          SawNewSample := s.SawNewSample
          NextSampleMicros := s.NextSampleMicros
          Trace := s.Trace }) ∧
    (s.Paused = false → pause cfg P false s = some (false, s)) ∧
    (s.Paused = true → resume cfg false s = (false, s)) := by
  have h1 : pause cfg P false s = some (false, { s with Paused := false }) := by
    rw [pause_eq]
    simp [hI]
  have h2 : resume cfg false s = (false, { s with Paused := true }) := by
    simp [resume, hI]
  refine ⟨h1, h2, ?_, ?_⟩
  · intro hP
    rw [h1, ← hP]
  · intro hP
    rw [h2, ← hP]

theorem run_state_after_failure_witness :
    interruptMode.USE_ARDUINO_INTERRUPTS = true ∧
    pause interruptMode counting false onePaused =
      some (false,
        { Sensors := onePaused.Sensors
          Paused := false
          SawNewSample := onePaused.SawNewSample
          NextSampleMicros := onePaused.NextSampleMicros
          Trace := onePaused.Trace }) ∧
    resume interruptMode false onePaused =
      (false,
        { Sensors := onePaused.Sensors
          Paused := true
          SawNewSample := onePaused.SawNewSample
          NextSampleMicros := onePaused.NextSampleMicros
          Trace := onePaused.Trace }) ∧
    (onePaused.Paused = false → pause interruptMode counting false onePaused
      = some (false, onePaused)) ∧
    (onePaused.Paused = true → resume interruptMode false onePaused = (false, onePaused)) :=
  ⟨rfl, run_state_after_failure interruptMode counting onePaused rfl⟩

/-- C15: `resume()` returns true and leaves `Paused = false` when re-enabling the trigger
succeeds, which is always the case in polling mode, and returns false and leaves
`Paused = true` when it fails. Either way it calls no channel operation and every channel,
`SawNewSample` and `NextSampleMicros` are as before. -/
theorem resume_sets_run_state_only (cfg : Config) (enableOk : Bool)
    (s : PulseSensorPlayground χ) :
    ((cfg.USE_ARDUINO_INTERRUPTS = false ∨ enableOk = true) →
      resume cfg enableOk s =
        (true,
          { Sensors := s.Sensors
            Paused := false
            SawNewSample := s.SawNewSample
            NextSampleMicros := s.NextSampleMicros
            Trace := s.Trace })) ∧
    ((cfg.USE_ARDUINO_INTERRUPTS = true ∧ enableOk = false) →
      resume cfg enableOk s =
        (false,
          { Sensors := s.Sensors
            Paused := true
            SawNewSample := s.SawNewSample
            NextSampleMicros := s.NextSampleMicros
            Trace := s.Trace })) := by
  constructor
  · intro h
    rcases h with h | h
    · simp [resume, h]
    · cases hI : cfg.USE_ARDUINO_INTERRUPTS <;> simp [resume, h, hI]
  · intro h
    simp [resume, h.1, h.2]

theorem resume_sets_run_state_only_witness :
    resume interruptMode true onePaused = (true, oneIdle) ∧
    resume pollingMode false onePaused = (true, oneIdle) ∧
    resume interruptMode false oneIdle = (false, onePaused) :=
  ⟨(resume_sets_run_state_only interruptMode true onePaused).1 (Or.inr rfl),
    (resume_sets_run_state_only pollingMode false onePaused).1 (Or.inl rfl),
    (resume_sets_run_state_only interruptMode false oneIdle).2 ⟨rfl, rfl⟩⟩

/-- C16: for every prior state and clock reading, `begin()` returns true and leaves
`Paused = false` exactly when the periodic trigger is installed (polling mode, where nothing
is installed, or interrupt mode with `PulseSensorPlaygroundSetupInterrupt()` returning true);
otherwise it returns false and leaves `Paused = true`. In every case `SawNewSample` is false
and `NextSampleMicros` is the clock reading plus `MICROS_PER_READ` modulo `2^32` afterwards,
and `isPaused()` returns the resulting `Paused`. -/
theorem begin_sets_run_state (cfg : Config) (P : PulseSensor χ) (setupOk : Bool)
    (micros : Nat) (s : PulseSensorPlayground χ) :
    ∃ (ok : Bool) (t : PulseSensorPlayground χ),
      begin cfg P setupOk micros s = some (ok, t) ∧
      (ok = true ↔ (cfg.USE_ARDUINO_INTERRUPTS = false ∨ setupOk = true)) ∧
      (ok = true → t.Paused = false) ∧
      (ok = false → t.Paused = true) ∧
      t.SawNewSample = false ∧
      t.NextSampleMicros = (micros + cfg.MICROS_PER_READ) % 4294967296 ∧
      isPaused t = t.Paused ∧
      t.Sensors = s.Sensors.map P.initializeLEDs := by
  refine ⟨_, _, begin_eq cfg P setupOk micros s, ?_, ?_, ?_, rfl, rfl, rfl, rfl⟩
  · cases cfg.USE_ARDUINO_INTERRUPTS <;> cases setupOk <;> simp
  · cases cfg.USE_ARDUINO_INTERRUPTS <;> cases setupOk <;> simp
  · cases cfg.USE_ARDUINO_INTERRUPTS <;> cases setupOk <;> simp

theorem begin_sets_run_state_witness :
    begin interruptMode counting true 100 twoPending =
      some (true,
        { Sensors := [4, 4]
          Paused := false
          SawNewSample := false
          NextSampleMicros := 2100
          Trace := cycleTrace 2 ++ [(0, .initializeLEDs), (1, .initializeLEDs)] }) ∧
    begin interruptMode counting false 4294967295 twoPending =
      some (false,
        { Sensors := [4, 4]
          Paused := true
          SawNewSample := false
          NextSampleMicros := 1999
          Trace := cycleTrace 2 ++ [(0, .initializeLEDs), (1, .initializeLEDs)] }) ∧
    ∃ (ok : Bool) (t : PulseSensorPlayground Nat),
      begin pollingMode counting false 100 twoPending = some (ok, t) ∧
      (ok = true ↔ (pollingMode.USE_ARDUINO_INTERRUPTS = false ∨ false = true)) ∧
      (ok = true → t.Paused = false) ∧
      (ok = false → t.Paused = true) ∧
      t.SawNewSample = false ∧
      t.NextSampleMicros = (100 + pollingMode.MICROS_PER_READ) % 4294967296 ∧
      isPaused t = t.Paused ∧
      t.Sensors = twoPending.Sensors.map counting.initializeLEDs :=
  ⟨by decide, by decide, begin_sets_run_state pollingMode counting false 100 twoPending⟩

/-- When the interrupt service routine runs before the read of the flag or after the clear,
the completed cycle is not lost: the call returns true, or `SawNewSample` is true once both
have finished. -/
theorem flag_survives_outside_window (P : PulseSensor χ) (s : PulseSensorPlayground χ) :
    (∃ t, sawNewSampleWithInterrupt P .beforeRead s = some (true, t)) ∧
    (∃ r t, sawNewSampleWithInterrupt P .afterClear s = some (r, t) ∧ t.SawNewSample = true) := by
  constructor
  · exact ⟨{ s with Sensors := s.Sensors.map (cycleChannel P),
                    Trace := s.Trace ++ cycleTrace s.Sensors.length,
                    SawNewSample := false },
      by simp [sawNewSampleWithInterrupt, onSampleTime_eq]⟩
  · exact ⟨s.SawNewSample,
      { s with Sensors := s.Sensors.map (cycleChannel P),
               Trace := s.Trace ++ cycleTrace s.Sensors.length,
               SawNewSample := true },
      by simp [sawNewSampleWithInterrupt, onSampleTime_eq], rfl⟩

/-- C17 (the code departs from the claim): the statements that would disable and re-enable
the interrupt around the read-and-clear are comments, so `onSampleTime()` can run between
`sawOne = SawNewSample;` and `SawNewSample = false;`. In that interleaving the call returns
the flag it read before the cycle and then clears the flag the cycle raised: starting with
no sample pending, `sawNewSample()` returns false and `SawNewSample` is false after both
have finished, so the completed cycle is never signalled. -/
theorem flag_race_loses_signal (P : PulseSensor χ) (s : PulseSensorPlayground χ) :
    sawNewSampleWithInterrupt P .betweenReadAndClear s =
      some (s.SawNewSample,
        { Sensors := s.Sensors.map (cycleChannel P)
          Paused := s.Paused
          SawNewSample := false
          NextSampleMicros := s.NextSampleMicros
          Trace := s.Trace ++ cycleTrace s.SensorCount }) ∧
    oneIdle.SawNewSample = false ∧
    sawNewSampleWithInterrupt counting .betweenReadAndClear oneIdle =
      some (false,
        { Sensors := [3]
          Paused := false
          SawNewSample := false
          NextSampleMicros := 2000
          Trace := [(0, .readNextSample), (0, .processLatestSample), (0, .updateLEDs)] }) := by
  refine ⟨?_, rfl, by decide⟩
  simp [sawNewSampleWithInterrupt, onSampleTime_eq, SensorCount]

/-- C18, as stated, fails: `PulseSensorPlayground(256)` stores `SensorCount = 0` and
allocates no channel, and `PulseSensorPlayground(300)` stores 44. -/
theorem create_truncates_to_byte :
    (create counting 256 (false, false, 0)).SensorCount = 0 ∧
    (create counting 256 (false, false, 0)).Sensors = [] ∧
    (create counting 300 (false, false, 0)).SensorCount = 44 := by
  decide

/-- C18, amended: constructing `PulseSensorPlayground(numberOfSensors)` stores
`SensorCount = (byte) numberOfSensors`, that is `numberOfSensors` modulo 256, and allocates
exactly that many freshly constructed channels. For `1 <= numberOfSensors <= 255` this gives
`SensorCount = numberOfSensors` and exactly the indices 0 .. numberOfSensors-1 hold a
channel. -/
theorem create_SensorCount (P : PulseSensor χ) (numberOfSensors : Int)
    (junk : Bool × Bool × Nat) :
    ((create P numberOfSensors junk).SensorCount : Int) = numberOfSensors % 256 ∧
    (create P numberOfSensors junk).Sensors =
      List.replicate (numberOfSensors % 256).toNat P.construct ∧
    (1 ≤ numberOfSensors → numberOfSensors ≤ 255 →
      ((create P numberOfSensors junk).SensorCount : Int) = numberOfSensors ∧
      ∀ i : Nat, ((create P numberOfSensors junk).Sensors[i]? = some P.construct ↔
        (i : Int) < numberOfSensors)) := by
  have hlen : (create P numberOfSensors junk).SensorCount = (numberOfSensors % 256).toNat := by
    simp [create, SensorCount, toByte]
  have hnn : 0 ≤ numberOfSensors % 256 := Int.emod_nonneg _ (by decide)
  refine ⟨by rw [hlen]; omega, rfl, ?_⟩
  intro h1 h2
  have hmod : numberOfSensors % 256 = numberOfSensors := by omega
  refine ⟨by rw [hlen]; omega, ?_⟩
  intro i
  show (List.replicate (toByte numberOfSensors) P.construct)[i]? = some P.construct ↔ _
  have htb : toByte numberOfSensors = numberOfSensors.toNat := by simp [toByte, hmod]
  rw [htb, List.getElem?_replicate]
  constructor
  · intro h
    by_cases hi : i < numberOfSensors.toNat
    · omega
    · simp [hi] at h
  · intro h
    have hi : i < numberOfSensors.toNat := by omega
    simp [hi]

theorem create_SensorCount_witness :
    ((create counting 2 (false, false, 0)).SensorCount : Int) = 2 ∧
    ∀ i : Nat, ((create counting 2 (false, false, 0)).Sensors[i]? = some counting.construct ↔
      (i : Int) < 2) :=
  (create_SensorCount counting 2 (false, false, 0)).2.2 (by decide) (by decide)

/-- C19, as stated, fails: on a channel whose last beat time is `2^32 - 1`,
`getLastBeatTime(0)` returns the same value as the out-of-range call `getLastBeatTime(-1)`. -/
theorem getLastBeatTime_sentinel_is_a_valid_time :
    (getLastBeatTime beatAtMax 0 oneIdle).map Prod.fst = some 4294967295 ∧
    (getLastBeatTime beatAtMax (-1) oneIdle).map Prod.fst = some 4294967295 := by
  decide

/-- C19, amended: for every `sensorIndex < 0` or `sensorIndex > SensorCount`,
`getLastBeatTime` returns `2^32 - 1`, which is -1 converted to `unsigned long`, and leaves
the playground untouched. This value is not reserved: for an index that holds a channel the
call returns whatever last beat time the channel reports, so it returns `2^32 - 1` as well
exactly when the channel reports `2^32 - 1`. -/
theorem getLastBeatTime_out_of_range_value (P : PulseSensor χ) (sensorIndex : Int)
    (s : PulseSensorPlayground χ) :
    ((sensorIndex < 0 ∨ (s.SensorCount : Int) < sensorIndex) →
      getLastBeatTime P sensorIndex s = some (4294967295, s)) ∧
    (∀ (i : Nat) (x : χ), s.Sensors[i]? = some x →
      getLastBeatTime P (i : Int) s =
        some ((P.getLastBeatTime x).1,
          { Sensors := s.Sensors.set i (P.getLastBeatTime x).2
            Paused := s.Paused
            SawNewSample := s.SawNewSample
            NextSampleMicros := s.NextSampleMicros
            Trace := s.Trace ++ [(i, SensorCall.getLastBeatTime)] }) ∧
      ((getLastBeatTime P (i : Int) s).map Prod.fst = some 4294967295 ↔
        (P.getLastBeatTime x).1 = 4294967295)) := by
  constructor
  · intro h
    simp [getLastBeatTime, outOfRange_of_lt_or_gt sensorIndex s h, ULONG_RANGE]
  · intro i x hx
    have hi : i < s.Sensors.length := (List.getElem?_eq_some_iff.mp hx).1
    have hr : outOfRange (i : Int) s = false := by
      have hc : constrain (i : Int) 0 (s.SensorCount : Int) = (i : Int) := by
        unfold constrain SensorCount
        split
        · omega
        · split
          · omega
          · rfl
      simp [outOfRange, hc]
    have he : getLastBeatTime P (i : Int) s =
        some ((P.getLastBeatTime x).1,
          { Sensors := s.Sensors.set i (P.getLastBeatTime x).2
            Paused := s.Paused
            SawNewSample := s.SawNewSample
            NextSampleMicros := s.NextSampleMicros
            Trace := s.Trace ++ [(i, SensorCall.getLastBeatTime)] }) := by
      simp [getLastBeatTime, hr, invoke, hx]
    refine ⟨he, ?_⟩
    rw [he]
    simp

theorem getLastBeatTime_out_of_range_value_witness :
    ((-1 : Int) < 0 ∨ (oneIdle.SensorCount : Int) < -1) ∧
    getLastBeatTime counting (-1) oneIdle = some (4294967295, oneIdle) :=
  ⟨Or.inl (by decide),
    (getLastBeatTime_out_of_range_value counting (-1) oneIdle).1 (Or.inl (by decide))⟩

/-- C20: `pause()` and `resume()` never change `SawNewSample` or `NextSampleMicros`, in
either mode and whatever the collaborators return. So in interrupt mode, from a state with
a sample pending (running or not), a successful `pause()` followed by a successful `resume()`,
with no `onSampleTime()` in between, leaves the sample pending: the next `sawNewSample()`
returns true, although `pause()` has called `resetVariables` on every channel and the only
channel calls made since are those resets. -/
theorem pending_signal_survives_pause (cfg : Config) (P : PulseSensor χ) (micros : Nat)
    (s : PulseSensorPlayground χ) (hI : cfg.USE_ARDUINO_INTERRUPTS = true)
    (hF : s.SawNewSample = true) :
    (∀ (c : Config) (ok : Bool) (u : PulseSensorPlayground χ),
      (∃ r t, pause c P ok u = some (r, t) ∧ t.SawNewSample = u.SawNewSample ∧
        t.NextSampleMicros = u.NextSampleMicros) ∧
      (resume c ok u).2.SawNewSample = u.SawNewSample ∧
      (resume c ok u).2.NextSampleMicros = u.NextSampleMicros) ∧
    pause cfg P true s =
      some (true,
        { Sensors := s.Sensors.map P.resetVariables
          Paused := true
          SawNewSample := true
          NextSampleMicros := s.NextSampleMicros
          Trace := s.Trace ++ pass [.resetVariables] s.SensorCount }) ∧
    resume cfg true
        { Sensors := s.Sensors.map P.resetVariables
          Paused := true
          SawNewSample := true
          NextSampleMicros := s.NextSampleMicros
          Trace := s.Trace ++ pass [.resetVariables] s.SensorCount } =
      (true,
        { Sensors := s.Sensors.map P.resetVariables
          Paused := false
          SawNewSample := true
          NextSampleMicros := s.NextSampleMicros
          Trace := s.Trace ++ pass [.resetVariables] s.SensorCount }) ∧
    sawNewSample cfg P micros
        { Sensors := s.Sensors.map P.resetVariables
          Paused := false
          SawNewSample := true
          NextSampleMicros := s.NextSampleMicros
          Trace := s.Trace ++ pass [.resetVariables] s.SensorCount } =
      some (true,
        { Sensors := s.Sensors.map P.resetVariables
          Paused := false
          SawNewSample := false
          NextSampleMicros := s.NextSampleMicros
          Trace := s.Trace ++ pass [.resetVariables] s.SensorCount }) := by
  refine ⟨?_, ?_, ?_, ?_⟩
  · intro c ok u
    refine ⟨?_, ?_, ?_⟩
    · rw [pause_eq]
      by_cases h : (c.USE_ARDUINO_INTERRUPTS && !ok) = true
      · exact ⟨false, { u with Paused := false }, by rw [if_pos h], rfl, rfl⟩
      · exact ⟨true,
          { u with Sensors := u.Sensors.map P.resetVariables,
                   Trace := u.Trace ++ pass [.resetVariables] u.Sensors.length,
                   Paused := true }, by rw [if_neg h], rfl, rfl⟩
    · cases hc : c.USE_ARDUINO_INTERRUPTS <;> cases ok <;> simp [resume, hc]
    · cases hc : c.USE_ARDUINO_INTERRUPTS <;> cases ok <;> simp [resume, hc]
  · rw [pause_eq]
    simp [hI, hF, SensorCount]
  · simp [resume, hI]
  · simp [sawNewSample, hI]

theorem pending_signal_survives_pause_witness :
    interruptMode.USE_ARDUINO_INTERRUPTS = true ∧ twoPending.Paused = false ∧
    twoPending.SawNewSample = true ∧
    ((pause interruptMode counting true twoPending).bind fun r =>
      sawNewSample interruptMode counting 0 (resume interruptMode true r.2).2) =
      some (true,
        { Sensors := [0, 0]
          Paused := false
          SawNewSample := false
          NextSampleMicros := 2000
          Trace := cycleTrace 2 ++ [(0, .resetVariables), (1, .resetVariables)] }) ∧
    sawNewSample interruptMode counting 0
        { Sensors := twoPending.Sensors.map counting.resetVariables
          Paused := false
          SawNewSample := true
          NextSampleMicros := twoPending.NextSampleMicros
          Trace := twoPending.Trace ++ pass [.resetVariables] twoPending.SensorCount } =
      some (true,
        { Sensors := twoPending.Sensors.map counting.resetVariables
          Paused := false
          SawNewSample := false
          NextSampleMicros := twoPending.NextSampleMicros
          Trace := twoPending.Trace ++ pass [.resetVariables] twoPending.SensorCount }) :=
  ⟨rfl, rfl, rfl, by decide,
    (pending_signal_survives_pause interruptMode counting 0 twoPending rfl rfl).2.2.2⟩

end PulseSensorPlayground
